import Mathlib

/-!
Verification of the trading-crew repository's core components against its
specification.  The Python sources are shallowly embedded in Lean:

* `scripts/gemini_utils.py` — response parsing (`strip_markdown_code_block`,
  `parse_json_response`) and the inference-client retry loops (`call_gemini`,
  `call_gemini_json`);
* `TradingAgents/tradingagents/agents/managers/risk_manager.py` — the
  JSON-block extractor `parse_trade_decision_json` and the final-judgment
  node `risk_manager_node` with its one-shot retry;
* `scripts/universal_agents.py` — the marker scan `_extract_decision` and the
  final `risk_judge` with its degraded fallback record;
* `scripts/portfolio_worker.py` — `parse_position`, `calculate_ko_proximity`;
* `src/bot/commands/risk.py` — the composite risk-score computation.

Python floats are modelled as exact rationals (`Rat`); Python `str` as Lean
`String` with helper functions (`py...`) reproducing the Python string
operations used by the sources.  JSON values are modelled by the inductive
`Json` below together with an executable parser `json_loads` that mirrors
`json.loads` on the JSON grammar (the `NaN`/`Infinity` extensions, which have
no rational value, and numeric-literal underscores are not represented; no
claim exercises them).
-/

/-! ## Python string primitives -/

/-- Python's default `str.strip` whitespace set: space, `\t`, `\n`, `\r`,
vertical tab (0x0b) and form feed (0x0c). -/
def pyWhitespace (c : Char) : Bool :=
  c == ' ' || c == '\t' || c == '\n' || c == '\r' ||
  c == Char.ofNat 11 || c == Char.ofNat 12

/-- Python `str.strip()` with no argument. -/
def pyStrip (s : String) : String :=
  String.mk (((s.data.dropWhile pyWhitespace).reverse.dropWhile pyWhitespace).reverse)

/-- Python `sub in s` (substring containment). -/
def pyContains (s sub : String) : Bool :=
  decide (sub.data <:+: s.data)

/-- Python `s.startswith(pre)`. -/
def pyStartsWith (s pre : String) : Bool :=
  decide (pre.data <+: s.data)

/-- Python `s.endswith(suf)`. -/
def pyEndsWith (s suf : String) : Bool :=
  decide (suf.data <:+ s.data)

/-- Python `s[:n]` for `n ≥ 0`. -/
def pyTake (n : Nat) (s : String) : String :=
  String.mk (s.data.take n)

/-- Python `s[n:]` for `n ≥ 0`. -/
def pyDrop (n : Nat) (s : String) : String :=
  String.mk (s.data.drop n)

/-- Python `s[:-n]` for `n > 0` (drop the final `n` characters). -/
def pyDropRight (n : Nat) (s : String) : String :=
  String.mk (s.data.take (s.data.length - n))

/-- Python `s[a:b]` for `0 ≤ a ≤ b`. -/
def pySlice (s : String) (a b : Nat) : String :=
  String.mk ((s.data.drop a).take (b - a))

/-- Python `str.upper` (the sources only apply it to ASCII tokens). -/
def pyUpper (s : String) : String :=
  String.mk (s.data.map Char.toUpper)

def pyFindCharAux (c : Char) : List Char → Nat → Option Nat
  | [], _ => none
  | x :: xs, i => if x = c then some i else pyFindCharAux c xs (i + 1)

/-- Python `s.find(c)` for a single character `c`; `none` models `-1`. -/
def pyFindChar (s : String) (c : Char) : Option Nat :=
  pyFindCharAux c s.data 0

def pyRFindCharAux (c : Char) : List Char → Nat → Option Nat → Option Nat
  | [], _, best => best
  | x :: xs, i, best =>
    pyRFindCharAux c xs (i + 1) (if x = c then some i else best)

/-- Python `s.rfind(c)` for a single character `c`; `none` models `-1`. -/
def pyRFindChar (s : String) (c : Char) : Option Nat :=
  pyRFindCharAux c s.data 0 none

def pyFindSubAux (sub : List Char) : List Char → Nat → Option Nat
  | [], i => if sub = [] then some i else none
  | x :: xs, i =>
    if sub <+: (x :: xs) then some i else pyFindSubAux sub xs (i + 1)

/-- Python `s.find(sub)` for a substring; `none` models `-1`. -/
def pyFindSub (s sub : String) : Option Nat :=
  pyFindSubAux sub.data s.data 0

def pySplitAux (sep : List Char) : Nat → List Char → List Char → List String
  | 0, cs, acc => [String.mk (acc.reverse ++ cs)]
  | fuel + 1, cs, acc =>
    if sep <+: cs then
      String.mk acc.reverse :: pySplitAux sep fuel (cs.drop sep.length) []
    else
      match cs with
      | [] => [String.mk acc.reverse]
      | c :: cs' => pySplitAux sep fuel cs' (c :: acc)

/-- Python `s.split(sep)` for a non-empty separator: split at every
non-overlapping occurrence, left to right, keeping empty pieces. -/
def pySplit (s sep : String) : List String :=
  pySplitAux sep.data (s.data.length + 1) s.data []

def pyReplaceAux (pat rep : List Char) : Nat → List Char → List Char
  | 0, cs => cs
  | fuel + 1, cs =>
    if pat <+: cs then rep ++ pyReplaceAux pat rep fuel (cs.drop pat.length)
    else
      match cs with
      | [] => []
      | c :: cs' => c :: pyReplaceAux pat rep fuel cs'

/-- Python `s.replace(pat, rep)` for a non-empty pattern: replace every
non-overlapping occurrence, left to right. -/
def pyReplace (s pat rep : String) : String :=
  String.mk (pyReplaceAux pat.data rep.data (s.data.length + 1) s.data)

/-- Value of a list of decimal digit characters. -/
def digitsToNat (ds : List Char) : Nat :=
  ds.foldl (fun a c => a * 10 + (c.toNat - 48)) 0

/-- Python `float(s)` on decimal literals: optional sign, digits, optional
fractional part, optional exponent, surrounded by optional whitespace.
(`inf`/`nan` and digit-group underscores are not modelled; no source input
at issue uses them.)  `none` models the `ValueError` raised on other text. -/
def pyFloat (s : String) : Option Rat :=
  let cs := (pyStrip s).data
  let sgnCs : Int × List Char :=
    match cs with
    | '+' :: r => (1, r)
    | '-' :: r => (-1, r)
    | r => (1, r)
  let sgn := sgnCs.1
  let intDs := sgnCs.2.takeWhile Char.isDigit
  let cs2 := sgnCs.2.dropWhile Char.isDigit
  let fracCs : List Char × List Char :=
    match cs2 with
    | '.' :: r => (r.takeWhile Char.isDigit, r.dropWhile Char.isDigit)
    | r => ([], r)
  let fracDs := fracCs.1
  let cs3 := fracCs.2
  if intDs.isEmpty && fracDs.isEmpty then none
  else
    let m : Int := sgn * (digitsToNat intDs * 10 ^ fracDs.length + digitsToNat fracDs)
    match cs3 with
    | [] => some (Rat.divInt m ((10 : Int) ^ fracDs.length))
    | e :: r =>
      if e = 'e' ∨ e = 'E' then
        let esgnR : Bool × List Char :=
          match r with
          | '+' :: t => (true, t)
          | '-' :: t => (false, t)
          | t => (true, t)
        let expDs := esgnR.2.takeWhile Char.isDigit
        let rest := esgnR.2.dropWhile Char.isDigit
        if expDs.isEmpty ∨ ¬ rest.isEmpty then none
        else
          let ex : Int :=
            (if esgnR.1 then (digitsToNat expDs : Int) else -(digitsToNat expDs : Int)) -
              fracDs.length
          some (if 0 ≤ ex then Rat.divInt (m * (10 : Int) ^ ex.toNat) 1
                else Rat.divInt m ((10 : Int) ^ (-ex).toNat))
      else none

/-- Round to the nearest integer, ties to even (the rounding used by Python's
fixed-point float formatting, transported to the rational model). -/
def roundHalfEven (q : Rat) : Int :=
  let f := q.floor
  let frac := q - f
  if frac < 1 / 2 then f
  else if frac > 1 / 2 then f + 1
  else if f % 2 = 0 then f else f + 1

/-- Python `f"{q:.2f}"` on the rational model of a float. -/
def formatFixed2 (q : Rat) : String :=
  let neg := q < 0
  let n := (roundHalfEven ((if neg then -q else q) * 100)).toNat
  let fracPart := n % 100
  let fracStr := if fracPart < 10 then "0" ++ toString fracPart else toString fracPart
  (if neg then "-" else "") ++ toString (n / 100) ++ "." ++ fracStr

/-! ## JSON values and `json.loads` -/

/-- Parsed JSON values.  `obj` keeps the insertion order of a Python `dict`;
`num` is the exact rational value of the numeric literal. -/
inductive Json where
  | null
  | bool (b : Bool)
  | num (q : Rat)
  | str (s : String)
  | arr (elems : List Json)
  | obj (fields : List (String × Json))
deriving Repr

def Json.isObj : Json → Bool
  | .obj _ => true
  | _ => false

/-- Python truthiness of a parsed JSON value (`if result:`). -/
def jsonTruthy : Json → Bool
  | .null => false
  | .bool b => b
  | .num q => q ≠ 0
  | .str s => s ≠ ""
  | .arr l => !l.isEmpty
  | .obj l => !l.isEmpty

/-- `dict` insertion: an existing key keeps its position and gets the new
value, as in CPython (used for duplicate keys while parsing an object). -/
def objInsert (l : List (String × Json)) (k : String) (v : Json) :
    List (String × Json) :=
  match l with
  | [] => [(k, v)]
  | (k', v') :: rest =>
    if k' = k then (k', v) :: rest else (k', v') :: objInsert rest k v

/-- Python `dict.get(k)`: the value of the first (unique) binding of `k`. -/
def Json.getField : Json → String → Option Json
  | .obj l, k => (l.find? (fun p => p.1 == k)).map Prod.snd
  | _, _ => none

/-- JSON whitespace accepted between tokens by `json.loads`. -/
def jsonSkipWs : List Char → List Char
  | c :: cs =>
    if c = ' ' ∨ c = '\t' ∨ c = '\n' ∨ c = '\r' then jsonSkipWs cs else c :: cs
  | [] => []

def hexVal (c : Char) : Option Nat :=
  if '0' ≤ c ∧ c ≤ '9' then some (c.toNat - 48)
  else if 'a' ≤ c ∧ c ≤ 'f' then some (c.toNat - 87)
  else if 'A' ≤ c ∧ c ≤ 'F' then some (c.toNat - 55)
  else none

/-- Body of a JSON string literal (after the opening quote), with the
standard escapes.  A lone `\uXXXX` becomes the character with that code. -/
def jsonParseStringBody (fuel : Nat) (cs : List Char) (acc : List Char) :
    Option (String × List Char) :=
  match fuel with
  | 0 => none
  | fuel + 1 =>
    match cs with
    | [] => none
    | '"' :: rest => some (String.mk acc.reverse, rest)
    | '\\' :: e :: rest =>
      match e with
      | '"' => jsonParseStringBody fuel rest ('"' :: acc)
      | '\\' => jsonParseStringBody fuel rest ('\\' :: acc)
      | '/' => jsonParseStringBody fuel rest ('/' :: acc)
      | 'b' => jsonParseStringBody fuel rest (Char.ofNat 8 :: acc)
      | 'f' => jsonParseStringBody fuel rest (Char.ofNat 12 :: acc)
      | 'n' => jsonParseStringBody fuel rest ('\n' :: acc)
      | 'r' => jsonParseStringBody fuel rest ('\r' :: acc)
      | 't' => jsonParseStringBody fuel rest ('\t' :: acc)
      | 'u' =>
        match rest with
        | h1 :: h2 :: h3 :: h4 :: rest' =>
          match hexVal h1, hexVal h2, hexVal h3, hexVal h4 with
          | some a, some b, some c, some d =>
            jsonParseStringBody fuel rest'
              (Char.ofNat (((a * 16 + b) * 16 + c) * 16 + d) :: acc)
          | _, _, _, _ => none
        | _ => none
      | _ => none
    | c :: rest =>
      if c.toNat < 32 then none
      else jsonParseStringBody fuel rest (c :: acc)

/-- A JSON numeric literal: `-?(0|[1-9][0-9]*)(\.[0-9]+)?([eE][+-]?[0-9]+)?`. -/
def jsonParseNumber (cs : List Char) : Option (Rat × List Char) :=
  let sgnCs : Int × List Char :=
    match cs with
    | '-' :: r => (-1, r)
    | r => (1, r)
  let intDs := sgnCs.2.takeWhile Char.isDigit
  let cs2 := sgnCs.2.dropWhile Char.isDigit
  if intDs.isEmpty then none
  else if intDs.length > 1 ∧ intDs.headD '0' = '0' then none
  else
    let fracCs : Option (List Char × List Char) :=
      match cs2 with
      | '.' :: r =>
        let ds := r.takeWhile Char.isDigit
        if ds.isEmpty then none else some (ds, r.dropWhile Char.isDigit)
      | r => some ([], r)
    match fracCs with
    | none => none
    | some (fracDs, cs3) =>
      let m : Int := sgnCs.1 * (digitsToNat intDs * 10 ^ fracDs.length + digitsToNat fracDs)
      match cs3 with
      | 'e' :: r | 'E' :: r =>
        let esgnR : Bool × List Char :=
          match r with
          | '+' :: t => (true, t)
          | '-' :: t => (false, t)
          | t => (true, t)
        let expDs := esgnR.2.takeWhile Char.isDigit
        if expDs.isEmpty then none
        else
          let ex : Int :=
            (if esgnR.1 then (digitsToNat expDs : Int) else -(digitsToNat expDs : Int)) -
              fracDs.length
          some (if 0 ≤ ex then Rat.divInt (m * (10 : Int) ^ ex.toNat) 1
                else Rat.divInt m ((10 : Int) ^ (-ex).toNat),
                esgnR.2.dropWhile Char.isDigit)
      | _ => some (Rat.divInt m ((10 : Int) ^ fracDs.length), cs3)

mutual

/-- Recursive-descent JSON value, mirroring `json.loads` (strict mode). -/
def jsonParseValue (fuel : Nat) (cs : List Char) : Option (Json × List Char) :=
  match fuel with
  | 0 => none
  | fuel + 1 =>
    match jsonSkipWs cs with
    | [] => none
    | '{' :: rest =>
      match jsonSkipWs rest with
      | '}' :: rest' => some (.obj [], rest')
      | rest' => jsonParseMembers fuel rest' []
    | '[' :: rest =>
      match jsonSkipWs rest with
      | ']' :: rest' => some (.arr [], rest')
      | rest' => jsonParseItems fuel rest' []
    | '"' :: rest =>
      match jsonParseStringBody (rest.length + 1) rest [] with
      | some (s, rest') => some (.str s, rest')
      | none => none
    | 't' :: 'r' :: 'u' :: 'e' :: rest => some (.bool true, rest)
    | 'f' :: 'a' :: 'l' :: 's' :: 'e' :: rest => some (.bool false, rest)
    | 'n' :: 'u' :: 'l' :: 'l' :: rest => some (.null, rest)
    | rest =>
      match jsonParseNumber rest with
      | some (q, rest') => some (.num q, rest')
      | none => none

/-- Object members after `{` (first key expected at `cs`). -/
def jsonParseMembers (fuel : Nat) (cs : List Char)
    (acc : List (String × Json)) : Option (Json × List Char) :=
  match fuel with
  | 0 => none
  | fuel + 1 =>
    match cs with
    | '"' :: rest =>
      match jsonParseStringBody (rest.length + 1) rest [] with
      | none => none
      | some (k, rest') =>
        match jsonSkipWs rest' with
        | ':' :: rest'' =>
          match jsonParseValue fuel rest'' with
          | none => none
          | some (v, rest3) =>
            let acc' := objInsert acc k v
            match jsonSkipWs rest3 with
            | ',' :: rest4 => jsonParseMembers fuel (jsonSkipWs rest4) acc'
            | '}' :: rest4 => some (.obj acc', rest4)
            | _ => none
        | _ => none
    | _ => none

/-- Array items after `[` (first item expected at `cs`). -/
def jsonParseItems (fuel : Nat) (cs : List Char) (acc : List Json) :
    Option (Json × List Char) :=
  match fuel with
  | 0 => none
  | fuel + 1 =>
    match jsonParseValue fuel cs with
    | none => none
    | some (v, rest) =>
      match jsonSkipWs rest with
      | ',' :: rest' => jsonParseItems fuel rest' (v :: acc)
      | ']' :: rest' => some (.arr (v :: acc).reverse, rest')
      | _ => none

end

/-- `json.loads`: parse one JSON document and require only whitespace after
it (extra data raises `JSONDecodeError`, modelled by `none`). -/
def json_loads (s : String) : Option Json :=
  match jsonParseValue (2 * s.data.length + 4) s.data with
  | some (j, rest) => if (jsonSkipWs rest).isEmpty then some j else none
  | none => none

/-! ## `scripts/gemini_utils.py` — response parsing -/

/-- `strip_markdown_code_block` (gemini_utils.py lines 71–100): remove
markdown code-fence delimiters and an optional `json` language tag. -/
def strip_markdown_code_block (text : String) : String :=
  let text1 := pyStrip text
  let text2 :=
    if pyStartsWith text1 "```" then
      match pySplit text1 "```" with
      | _ :: content :: _ =>
        let content1 := if pyStartsWith content "json" then pyDrop 4 content else content
        pyStrip content1
      | _ => text1
    else text1
  if pyEndsWith text2 "```" then pyStrip (pyDropRight 3 text2) else text2

/-- The inner `_try_parse` of `parse_json_response` (gemini_utils.py lines
116–122): parse JSON and keep the result only when it is a dict. -/
def tryParseDict (text : String) : Option Json :=
  match json_loads text with
  | some r => if r.isObj then some r else none
  | none => none

/-- Truthiness of an `Optional[dict]` (`if result:`). -/
def truthyOpt : Option Json → Bool
  | some j => jsonTruthy j
  | none => false

/-- `parse_json_response` (gemini_utils.py lines 103–139): direct parse after
fence stripping, then the first-`{`-to-last-`}` span. -/
def parse_json_response (response_text : String) : Option Json :=
  if response_text = "" then none
  else
    let text := strip_markdown_code_block response_text
    let result := tryParseDict text
    if truthyOpt result then result
    else
      match pyFindChar text '{', pyRFindChar text '}' with
      | some start, some stop =>
        if start < stop then
          let result2 := tryParseDict (pySlice text start (stop + 1))
          if truthyOpt result2 then result2 else none
        else none
      | _, _ => none

/-! ## `scripts/gemini_utils.py` — inference-client retry loops

The Gemini backend is the external collaborator: one `GeminiOutcome` per
loop iteration models what `client.models.generate_content` did on that
attempt (a response whose `.text` is the given string — `""` for a
falsy/empty response — or a raised exception with the given message). -/

inductive GeminiOutcome where
  | response (text : String)
  | failure (msg : String)
deriving Repr, DecidableEq

/-- The retry loop of `call_gemini` (gemini_utils.py lines 196–220), as a
function of the per-attempt backend outcomes.  Returns the propagated result
(`.error` models the re-raised exception, `.ok ""` the empty-string return
after exhausting retries) together with the list of `time.sleep` durations
performed, in order. -/
def call_gemini_loop (retry_delay max_retries attempt : Nat) :
    List GeminiOutcome → Except String String × List Nat
  | [] => (.ok "", [])
  | o :: rest =>
    if attempt ≥ max_retries then (.ok "", [])
    else
      match o with
      | .response t =>
        if t ≠ "" then (.ok t, [])
        else if attempt < max_retries - 1 then
          let r := call_gemini_loop retry_delay max_retries (attempt + 1) rest
          (r.1, 2 :: r.2)
        else (.ok "", [])
      | .failure msg =>
        if pyContains msg "429" ∧ attempt < max_retries - 1 then
          let r := call_gemini_loop retry_delay max_retries (attempt + 1) rest
          (r.1, retry_delay * (attempt + 1) :: r.2)
        else if attempt = max_retries - 1 then (.error msg, [])
        else if attempt < max_retries - 1 then
          let r := call_gemini_loop retry_delay max_retries (attempt + 1) rest
          (r.1, 2 :: r.2)
        else (.ok "", [])

/-- `call_gemini` (gemini_utils.py lines 163–220) for given `max_retries`
and `retry_delay` (source defaults: 3 and 5). -/
def call_gemini (max_retries retry_delay : Nat) (outcomes : List GeminiOutcome) :
    Except String String × List Nat :=
  call_gemini_loop retry_delay max_retries 0 outcomes

/-- The retry loop of `call_gemini_json` (gemini_utils.py lines 341–383):
with a schema the response text goes through `json.loads`, without one
through `parse_json_response`; every failure — including a JSON-decode
failure of the response — falls through to the next attempt with the same
prompt, and `none` is returned after the loop.  The second component counts
the backend calls made. -/
def call_gemini_json_loop (schema : Bool) (max_retries attempt : Nat) :
    List GeminiOutcome → Option Json × Nat
  | [] => (none, 0)
  | o :: rest =>
    if attempt ≥ max_retries then (none, 0)
    else
      let next := call_gemini_json_loop schema max_retries (attempt + 1) rest
      let cont : Option Json × Nat := (next.1, next.2 + 1)
      match o with
      | .response t =>
        if t ≠ "" then
          if schema then
            match json_loads t with
            | some j => (some j, 1)
            | none => cont
          else
            match parse_json_response t with
            | some j => if jsonTruthy j then (some j, 1) else cont
            | none => cont
        else cont
      | .failure _ => cont

/-- `call_gemini_json` (gemini_utils.py lines 302–383) for a given
`max_retries` (source default 3). -/
def call_gemini_json (schema : Bool) (max_retries : Nat)
    (outcomes : List GeminiOutcome) : Option Json × Nat :=
  call_gemini_json_loop schema max_retries 0 outcomes

/-! ## `scripts/universal_agents.py` — judge extraction and risk judge -/

/-- `_extract_decision` (universal_agents.py lines 745–751). -/
def _extract_decision (judge_response : String) : String :=
  if pyContains judge_response "**LONG**" then "LONG"
  else if pyContains judge_response "**SHORT**" then "SHORT"
  else "HOLD"

/-- The degraded error-state record returned by `risk_judge`
(universal_agents.py lines 731–742). -/
def risk_judge_fallback (current_price price_eur : Rat) : Json :=
  .obj [("signal", .str "IGNORE"),
        ("confidence", .num 0),
        ("unable_to_assess", .bool true),
        ("price_usd", .num current_price),
        ("price_eur", .num price_eur),
        ("strategies", .obj []),
        ("support_zones", .arr []),
        ("resistance_zones", .arr []),
        ("detailed_analysis", .str "Error: Could not get valid JSON after 3 attempts."),
        ("timeframes", .obj [("short_term", .str "HOLD"),
                             ("medium_term", .str "HOLD"),
                             ("long_term", .str "HOLD")])]

/-- The result logic of `risk_judge` (universal_agents.py lines 566–742):
the prompt construction and the Gemini call are the external inference
collaborator, modelled by `inference_result` (what `call_gemini_json`
returned for this step); the price conversion `price_eur = current_price /
eur_rate` (line 571) and the truthiness check `if result:` (line 727) are
embedded.  A truthy extracted record is returned unchanged; otherwise the
degraded fallback record is returned. -/
def risk_judge (inference_result : Option Json) (current_price eur_rate : Rat) : Json :=
  let price_eur := current_price / eur_rate
  match inference_result with
  | some result =>
    if jsonTruthy result then result else risk_judge_fallback current_price price_eur
  | none => risk_judge_fallback current_price price_eur

/-! ## `scripts/portfolio_worker.py` — positions and barrier proximity -/

/-- `Position` (portfolio_worker.py lines 33–44). -/
structure Position where
  symbol : String
  display_name : String
  direction : String
  current_value : Rat
  factor : Rat
  knockout_level : Rat
  performance : Option Rat
  currency : String
deriving Repr, DecidableEq

/-- `parse_position` (portfolio_worker.py lines 47–114): normalise the
doubled delimiter to `-NEG`, split on `-`, validate the direction token,
convert the numeric fields (a `float()` `ValueError` yields `None`), and
read the optional performance/currency fields. -/
def parse_position (pos_str : String) : Option Position :=
  let parts := pySplit (pyReplace pos_str "--" "-NEG") "-"
  match parts with
  | display_name :: dir_raw :: v :: f :: ko :: rest =>
    let direction := pyUpper dir_raw
    if direction = "LONG" ∨ direction = "SHORT" ∨ direction = "NORMAL" then
      match pyFloat v, pyFloat f, pyFloat ko with
      | some current_value, some factor, some knockout_level =>
        match rest with
        | [] =>
          some ⟨"", display_name, direction, current_value, factor,
                knockout_level, none, "USD"⟩
        | part5 :: rest6 =>
          if pyUpper part5 = "USD" ∨ pyUpper part5 = "EUR" then
            some ⟨"", display_name, direction, current_value, factor,
                  knockout_level, none, pyUpper part5⟩
          else
            let perf : Option Rat :=
              if pyStartsWith part5 "NEG" then
                (pyFloat (pyDrop 3 part5)).map (fun q => -q)
              else pyFloat part5
            match perf with
            | none => none
            | some performance =>
              let currency :=
                match rest6 with
                | part6 :: _ =>
                  if pyUpper part6 = "USD" ∨ pyUpper part6 = "EUR" then pyUpper part6
                  else "USD"
                | [] => "USD"
              some ⟨"", display_name, direction, current_value, factor,
                    knockout_level, some performance, currency⟩
      | _, _, _ => none
    else none
  | _ => none

/-- `calculate_ko_proximity` (portfolio_worker.py lines 117–132). -/
def calculate_ko_proximity (current_price knockout_level : Rat)
    (direction : String) : Rat :=
  if knockout_level ≤ 0 ∨ current_price ≤ 0 then 100
  else if direction = "LONG" then
    (current_price - knockout_level) / current_price * 100
  else if direction = "SHORT" then
    (knockout_level - current_price) / current_price * 100
  else 100

/-! ## `src/bot/commands/risk.py` — composite risk score -/

/-- The composite risk-score computation of `_calculate_risk_metrics`
(risk.py lines 180–210): base 50, threshold penalties for sector
concentration, beta, average correlation, 3 points per upcoming earnings
event, a top-2 concentration penalty, clamped to [0, 100]. -/
def risk_score (max_sector_weight portfolio_beta avg_correlation : Rat)
    (upcoming_earnings_count : Nat) (top_2_concentration : Rat) : Rat :=
  let s : Rat := 50
  let s := s + (if max_sector_weight > 0.8 then 25
                else if max_sector_weight > 0.6 then 15
                else if max_sector_weight > 0.4 then 5 else 0)
  let s := s + (if portfolio_beta > 1.5 then 15
                else if portfolio_beta > 1.2 then 10 else 0)
  let s := s + (if avg_correlation > 0.7 then 10
                else if avg_correlation > 0.5 then 5 else 0)
  let s := s + (upcoming_earnings_count : Rat) * 3
  let s := s + (if top_2_concentration > 0.7 then 10 else 0)
  min 100 (max 0 s)

/-! ## `risk_manager.py` — `parse_trade_decision_json`

The three `re.search` patterns and the `re.findall` fallback are embedded as
dedicated scanners with the semantics of the Python regexes:

* pattern 1: ```` ```json\s*(\{[^`]+\})\s*``` ````
* pattern 2: ```` ```\s*(\{[^`]+\})\s*``` ````
* pattern 3: `<json>\s*(\{.+?\})\s*</json>` with `re.DOTALL`
* fallback: `re.findall(r'\{[^{}]*"signal"[^{}]*\}', ...)`, last match.

`re.search` scans start positions left to right; at a match position the
greedy `[^`]+` takes the longest capture whose tail still matches
`\}\s*``` `, and the lazy `.+?` the shortest one matching `\}\s*</json>`. -/

/-- Regex `\s` on the ASCII range used by these sources. -/
def regexWs (c : Char) : Bool := pyWhitespace c

def backquoteChar : Char := Char.ofNat 96

/-- Capture of `(\{[^`]+\})\s*` against a backquote-free segment that is
followed by the closing fence: the longest prefix `\{[^`]+\}` whose
remainder within the segment is all whitespace, i.e. the segment trimmed of
trailing whitespace, provided that ends in `}` and is long enough. -/
def fenceCapture (seg : List Char) : Option (List Char) :=
  let trimmed := (seg.reverse.dropWhile regexWs).reverse
  if trimmed.length ≥ 3 ∧ trimmed.headD ' ' = '{' ∧ trimmed.getLastD ' ' = '}' then
    some trimmed
  else none

/-- Try the fence pattern with opening literal `tag` at this position. -/
def matchFencedAt (tag cs : List Char) : Option (List Char) :=
  if tag <+: cs then
    let afterWs := (cs.drop tag.length).dropWhile regexWs
    match afterWs with
    | '{' :: body =>
      let seg := ('{' :: body).takeWhile (fun c => c ≠ backquoteChar)
      let rest2 := ('{' :: body).dropWhile (fun c => c ≠ backquoteChar)
      if "```".data <+: rest2 then fenceCapture seg else none
    | _ => none
  else none

/-- Leftmost-match search for the fence pattern with opening literal `tag`. -/
def searchFenced (tag : List Char) : List Char → Option (List Char)
  | [] => none
  | c :: cs =>
    match matchFencedAt tag (c :: cs) with
    | some cap => some cap
    | none => searchFenced tag cs

/-- Lazy scan for `.+?\}` followed by `\s*</json>`: the first `}` (with a
non-empty interior) whose tail, after whitespace, starts `</json>`.  `acc`
holds the reversed capture so far, `n` its length. -/
def jsonTagCapture : List Char → Nat → List Char → Option (List Char)
  | [], _, _ => none
  | c :: rest, n, acc =>
    if c = '}' ∧ n ≥ 2 ∧ "</json>".data <+: rest.dropWhile regexWs then
      some (('}' :: acc).reverse)
    else jsonTagCapture rest (n + 1) (c :: acc)

/-- Try the `<json>` pattern at this position. -/
def matchJsonTagAt (cs : List Char) : Option (List Char) :=
  if "<json>".data <+: cs then
    match (cs.drop 6).dropWhile regexWs with
    | '{' :: body => jsonTagCapture body 1 ['{']
    | _ => none
  else none

/-- Leftmost-match search for the `<json>` pattern. -/
def searchJsonTag : List Char → Option (List Char)
  | [] => none
  | c :: cs =>
    match matchJsonTagAt (c :: cs) with
    | some cap => some cap
    | none => searchJsonTag cs

/-- `re.findall(r'\{[^{}]*"signal"[^{}]*\}', text)`: non-overlapping matches
left to right; a match is a brace pair with a brace-free interior containing
the literal `"signal"`. -/
def findallSignalObjs (fuel : Nat) (cs : List Char) : List (List Char) :=
  match fuel with
  | 0 => []
  | fuel + 1 =>
    match cs with
    | [] => []
    | c :: cs' =>
      if c = '{' then
        let inner := cs'.takeWhile (fun x => x ≠ '{' ∧ x ≠ '}')
        let rest := cs'.dropWhile (fun x => x ≠ '{' ∧ x ≠ '}')
        match rest with
        | '}' :: rest' =>
          if "\"signal\"".data <:+: inner then
            ('{' :: (inner ++ ['}'])) :: findallSignalObjs fuel rest'
          else findallSignalObjs fuel cs'
        | _ => findallSignalObjs fuel cs'
      else findallSignalObjs fuel cs'

/-- `parse_trade_decision_json` (risk_manager.py lines 36–66): try the three
patterns in order — a pattern whose captured group fails `json.loads` falls
through to the next — then `json.loads` of the last `findall` match. -/
def parse_trade_decision_json (text : String) : Option Json :=
  let cs := text.data
  let try1 : Option Json :=
    match searchFenced "```json".data cs with
    | some cap => json_loads (String.mk cap)
    | none => none
  match try1 with
  | some j => some j
  | none =>
    let try2 : Option Json :=
      match searchFenced "```".data cs with
      | some cap => json_loads (String.mk cap)
      | none => none
    match try2 with
    | some j => some j
    | none =>
      let try3 : Option Json :=
        match searchJsonTag cs with
        | some cap => json_loads (String.mk cap)
        | none => none
      match try3 with
      | some j => some j
      | none =>
        match (findallSignalObjs (cs.length + 1) cs).getLast? with
        | some m => json_loads (String.mk m)
        | none => none

/-! ## `risk_manager.py` — `risk_manager_node` -/

/-- The German `language_instruction` of `risk_manager_node` (risk_manager.py lines 92–96). -/
def language_instruction (output_language : String) : String :=
  if output_language = "de" then
    "\n\n**WICHTIG: Schreibe deine GESAMTE Antwort auf DEUTSCH. Alle Analysen, Empfehlungen und Begründungen müssen auf Deutsch sein. Nur Tickersymbole und technische Begriffe können auf Englisch bleiben.**\n\n"
  else ""

/-- `direction_instruction` (risk_manager.py lines 98–108); `d` is `forced_direction.upper()`. -/
def direction_instruction (forced_direction : Option String) : String :=
  match forced_direction with
  | some fd =>
    let d := pyUpper fd
    "\n**IMPORTANT: FORCED DIRECTION = " ++ d ++ "**\nThe user has explicitly requested a " ++ d ++ " analysis. Your signal MUST be \"" ++ d ++ "\".\nProvide knockout strategies for a " ++ d ++ " position regardless of whether you would normally recommend this direction.\nStill provide honest analysis of risks and opportunities, but the final signal must be " ++ d ++ ".\n"
  | none => ""

/-- `price_instruction` (risk_manager.py lines 110–119). -/
def price_instruction (current_price : Option Rat) : String :=
  match current_price with
  | some p =>
    "\n**CRITICAL: AUTHORITATIVE CURRENT PRICE = $" ++ formatFixed2 p ++
    " USD**\nThis price is from yfinance real-time data. You MUST use this exact price in your JSON output for price_usd.\nDo NOT use any other price from the market report or your own estimation. This is the correct, verified price.\nEstimate price_eur as approximately " ++ formatFixed2 (p * (95 / 100 : Rat)) ++
    " EUR.\n"
  | none => ""

/-- The main judgment prompt of `risk_manager_node` (risk_manager.py lines 121–243), as a function of the interpolated pieces. -/
def risk_manager_prompt (lang_ins dir_ins price_ins trader_plan
    past_memory_str history : String) : String :=
  lang_ins ++ dir_ins ++ price_ins ++
  "As the Risk Management Judge and Debate Facilitator, your goal is to evaluate the debate between three risk analysts—Risky, Neutral, and Safe/Conservative—and determine the best course of action for the trader.\n\nYour decision must result in a clear recommendation:\n- **LONG**: Buy/go long on the asset\n- **SHORT**: Sell/go short on the asset\n- **HOLD**: Wait for better entry. Valid reasons: waiting for pullback, key support test, earnings/catalyst, unclear near-term direction. Always provide alternative strategies for those who want to enter anyway.\n- **IGNORE**: Do not trade this asset at all (fundamentally broken, fraud risk, etc.)\n\nHOLD is a valid decision when genuinely justified (e.g., \"wait for $230 support test before entering long\"), but do NOT use it as a lazy fallback when you're simply unsure. Take a stance - markets reward conviction.\n\nGuidelines for Decision-Making:\n1. **Summarize Key Arguments**: Extract the strongest points from each analyst, focusing on relevance to the context.\n2. **Provide Rationale**: Support your recommendation with direct quotes and counterarguments from the debate.\n3. **Refine the Trader's Plan**: Start with the trader's original plan, **" ++ trader_plan ++
  "**, and adjust it based on the analysts' insights.\n4. **Learn from Past Mistakes**: Use lessons from **" ++ past_memory_str ++
  "** to address prior misjudgments and improve the decision you are making now.\n\n---\n\n**Analysts Debate History:**\n" ++ history ++
  "\n\n---\n\n## CRITICAL: You MUST respond with a JSON block\n\nAt the VERY END of your response, you MUST include a structured JSON block. This is REQUIRED and must follow this EXACT format:\n\n```json\n\x7b\n  \"signal\": \"LONG\",\n  \"confidence\": 0.75,\n  \"unable_to_assess\": false,\n  \"price_usd\": 244.56,\n  \"price_eur\": 235.50,\n  \"strategies\": \x7b\n    \"conservative\": \x7b\"ko_level_usd\": 195.00, \"distance_pct\": 20.0, \"risk\": \"low\"\x7d,\n    \"moderate\": \x7b\"ko_level_usd\": 210.00, \"distance_pct\": 14.0, \"risk\": \"medium\"\x7d,\n    \"aggressive\": \x7b\"ko_level_usd\": 225.00, \"distance_pct\": 8.0, \"risk\": \"high\"\x7d\n  \x7d,\n  \"hold_alternative\": null,\n  \"support_zones\": [\n    \x7b\"level_usd\": 230.00, \"description\": \"Recent swing low, strong buyer interest\"\x7d,\n    \x7b\"level_usd\": 215.00, \"description\": \"200-day moving average\"\x7d,\n    \x7b\"level_usd\": 195.00, \"description\": \"Major support from Q3 consolidation\"\x7d\n  ],\n  \"resistance_zones\": [\n    \x7b\"level_usd\": 260.00, \"description\": \"Recent high, psychological level\"\x7d,\n    \x7b\"level_usd\": 280.00, \"description\": \"All-time high region\"\x7d,\n    \x7b\"level_usd\": 300.00, \"description\": \"Round number resistance\"\x7d\n  ],\n  \"detailed_analysis\": \"Your full analysis text here explaining the reasoning...\"\n\x7d\n```\n\n**JSON Field Requirements:**\n\n1. **signal**: Must be exactly \"LONG\", \"SHORT\", \"HOLD\", or \"IGNORE\" (uppercase)\n\n2. **confidence**: Your confidence level from 0.0 to 1.0 (e.g., 0.75 = 75%)\n\n3. **unable_to_assess**: Set to true ONLY if you genuinely cannot make an assessment due to missing data\n\n4. **price_usd**: Current price of the asset in USD\n\n5. **price_eur**: Current price in EUR (estimate using ~0.96 EUR/USD rate if needed)\n\n6. **strategies**: THREE knockout certificate strategies based on YOUR signal direction:\n   - For LONG signal: KO-levels are BELOW current price (you get knocked out if price falls)\n   - For SHORT signal: KO-levels are ABOVE current price (you get knocked out if price rises)\n   - **conservative**: Far from current price, low risk, ~15-25% distance\n   - **moderate**: Medium distance, medium risk, ~10-15% distance\n   - **aggressive**: Close to current price, high risk, ~5-10% distance\n   - distance_pct is the percentage distance from current price to KO level\n\n7. **hold_alternative**: If signal is HOLD, provide an alternative suggestion for traders who want to enter anyway:\n   ```json\n   \x7b\n     \"direction\": \"LONG\",\n     \"strategies\": \x7b\n       \"conservative\": \x7b\"ko_level_usd\": 195.00, \"distance_pct\": 20.0, \"risk\": \"low\"\x7d,\n       \"moderate\": \x7b\"ko_level_usd\": 210.00, \"distance_pct\": 14.0, \"risk\": \"medium\"\x7d,\n       \"aggressive\": \x7b\"ko_level_usd\": 225.00, \"distance_pct\": 8.0, \"risk\": \"high\"\x7d\n     \x7d\n   \x7d\n   ```\n   Set to null if signal is LONG, SHORT, or IGNORE.\n\n8. **support_zones**: Array of 2-4 key support levels with USD price and description\n\n9. **resistance_zones**: Array of 2-4 key resistance levels with USD price and description\n\n10. **detailed_analysis**: A COMPREHENSIVE analysis that MUST include:\n\n    **Structure your analysis like this:**\n\n    ## Zusammenfassung der Kernargumente (Summary of Core Arguments)\n\n    **Risky Analyst (Bullish):**\n    - List 3-5 key bullish arguments from the debate\n\n    **Safe Analyst (Bearish):**\n    - List 3-5 key bearish arguments from the debate\n\n    **Neutral Analyst:**\n    - List the neutral perspective and key observations\n\n    ## Meine Bewertung (My Evaluation)\n\n    Explain which arguments you find most convincing and why.\n    Address the strongest counter-arguments.\n\n    ## Strategische Handlungsanweisungen (Strategic Action Items)\n\n    Provide 3-5 concrete action items for the trader:\n    - Entry/Exit timing\n    - Risk management specifics\n    - Key levels to watch\n    - Catalysts or events to monitor\n    - Re-entry criteria if applicable\n\n    This detailed analysis should be 300-600 words, NOT just a short paragraph.\n\nThe JSON block MUST be the LAST thing in your response."

/-- The minimal retry prompt of `risk_manager_node` (risk_manager.py lines 269–304): only the JSON schema skeleton and the company name, no debate transcript. -/
def retry_prompt (company_name : String) : String :=
  "Your previous response did not contain a valid JSON block.\n\nPlease provide ONLY a JSON response with your trading decision based on your analysis of " ++ company_name ++
  ".\n\nRespond with ONLY this JSON structure, nothing else:\n\n```json\n\x7b\n  \"signal\": \"LONG\",\n  \"confidence\": 0.75,\n  \"unable_to_assess\": false,\n  \"price_usd\": 100.00,\n  \"price_eur\": 96.00,\n  \"strategies\": \x7b\n    \"conservative\": \x7b\"ko_level_usd\": 80.00, \"distance_pct\": 20.0, \"risk\": \"low\"\x7d,\n    \"moderate\": \x7b\"ko_level_usd\": 86.00, \"distance_pct\": 14.0, \"risk\": \"medium\"\x7d,\n    \"aggressive\": \x7b\"ko_level_usd\": 92.00, \"distance_pct\": 8.0, \"risk\": \"high\"\x7d\n  \x7d,\n  \"hold_alternative\": null,\n  \"support_zones\": [\n    \x7b\"level_usd\": 95.00, \"description\": \"Recent support level\"\x7d,\n    \x7b\"level_usd\": 85.00, \"description\": \"Major support zone\"\x7d\n  ],\n  \"resistance_zones\": [\n    \x7b\"level_usd\": 110.00, \"description\": \"Recent resistance\"\x7d,\n    \x7b\"level_usd\": 120.00, \"description\": \"All-time high\"\x7d\n  ],\n  \"detailed_analysis\": \"Brief analysis here\"\n\x7d\n```\n\nReplace the example values with your actual recommendation.\n- Signal must be \"LONG\", \"SHORT\", \"HOLD\", or \"IGNORE\"\n- For LONG: KO levels should be BELOW current price\n- For SHORT: KO levels should be ABOVE current price\n- If HOLD: Include hold_alternative with direction and strategies"

/-- The `risk_debate_state` fields read and copied by `risk_manager_node`. -/
structure RiskDebateState where
  history : String
  risky_history : String
  safe_history : String
  neutral_history : String
  current_risky_response : String
  current_safe_response : String
  current_neutral_response : String
  count : Nat
deriving Repr, DecidableEq

/-- The fields of the graph state read by `risk_manager_node`. -/
structure RMState where
  company_of_interest : String
  output_language : String
  forced_direction : Option String
  current_price : Option Rat
  risk_debate_state : RiskDebateState
  market_report : String
  news_report : String
  fundamentals_report : String
  sentiment_report : String
  investment_plan : String
deriving Repr

/-- The `new_risk_debate_state` dict built by `risk_manager_node`
(risk_manager.py lines 331–342). -/
structure RiskDebateStateOut where
  judge_decision : String
  history : String
  risky_history : String
  safe_history : String
  neutral_history : String
  latest_speaker : String
  current_risky_response : String
  current_safe_response : String
  current_neutral_response : String
  count : Nat
deriving Repr, DecidableEq

/-- The dict returned by `risk_manager_node` (risk_manager.py lines 344–348). -/
structure RMResult where
  risk_debate_state : RiskDebateStateOut
  final_trade_decision : String
  trade_decision : Json
deriving Repr

/-- `risk_manager_node` (risk_manager.py lines 70–350).  External
collaborators are passed as functions: `llm` maps a prompt to the (already
content-normalised) response text — the list/dict content-block
normalisation of lines 246–260 and 307–320 is the identity on plain string
content — and `memory` maps the situation summary to the recalled
recommendation strings (`memory.get_memories(..., n_matches=2)`).

The result pairs the node's outcome (`.error` models the `ValueError`
raised when parsing still fails after the retry) with the list of prompts
sent to `llm`, in order, so that the retry discipline is observable.
`risk_manager_main_prompt` factors out the first prompt (risk_manager.py
lines 77–121): the memory lookup on the concatenated situation reports and
the interpolated judgment template. -/
def risk_manager_main_prompt (memory : String → List String) (state : RMState) :
    String :=
  let curr_situation :=
    state.market_report ++ "\n\n" ++ state.sentiment_report ++ "\n\n" ++
    state.news_report ++ "\n\n" ++ state.fundamentals_report
  let past_memory_str := (memory curr_situation).foldl (fun acc r => acc ++ r ++ "\n\n") ""
  risk_manager_prompt (language_instruction state.output_language)
    (direction_instruction state.forced_direction)
    (price_instruction state.current_price)
    state.investment_plan past_memory_str state.risk_debate_state.history

def risk_manager_node (llm : String → String) (memory : String → List String)
    (state : RMState) : Except String RMResult × List String :=
  let company_name := state.company_of_interest
  let prompt := risk_manager_main_prompt memory state
  let response_text := llm prompt
  let mkResult : Json → RMResult := fun td =>
    { risk_debate_state :=
        { judge_decision := response_text
          history := state.risk_debate_state.history
          risky_history := state.risk_debate_state.risky_history
          safe_history := state.risk_debate_state.safe_history
          neutral_history := state.risk_debate_state.neutral_history
          latest_speaker := "Judge"
          current_risky_response := state.risk_debate_state.current_risky_response
          current_safe_response := state.risk_debate_state.current_safe_response
          current_neutral_response := state.risk_debate_state.current_neutral_response
          count := state.risk_debate_state.count }
      final_trade_decision := response_text
      trade_decision := td }
  match parse_trade_decision_json response_text with
  | some trade_decision => (.ok (mkResult trade_decision), [prompt])
  | none =>
    let rp := retry_prompt company_name
    let retry_text := llm rp
    match parse_trade_decision_json retry_text with
    | some trade_decision => (.ok (mkResult trade_decision), [prompt, rp])
    | none =>
      (.error ("Failed to parse trade decision JSON after retry. Original response: " ++
               pyTake 500 response_text ++ "... Retry response: " ++
               pyTake 500 retry_text ++ "..."),
       [prompt, rp])

/-- A schema-shaped model record whose signal is LONG but whose conservative
barrier (150) lies above its reference price (100) — used to exhibit that
`risk_judge` performs no barrier validation. -/
def c3BadRecord : Json :=
  Json.obj
    [("signal", Json.str "LONG"),
     ("confidence", Json.num (mkRat 4 5)),
     ("unable_to_assess", Json.bool false),
     ("price_usd", Json.num 100),
     ("price_eur", Json.num 96),
     ("strategies", Json.obj
       [("conservative", Json.obj [("ko_level_usd", Json.num 150),
          ("distance_pct", Json.num 50), ("risk", Json.str "low")]),
        ("moderate", Json.obj [("ko_level_usd", Json.num 86),
          ("distance_pct", Json.num 14), ("risk", Json.str "medium")]),
        ("aggressive", Json.obj [("ko_level_usd", Json.num 92),
          ("distance_pct", Json.num 8), ("risk", Json.str "high")])]),
     ("support_zones", Json.arr []),
     ("resistance_zones", Json.arr []),
     ("detailed_analysis", Json.str "analysis"),
     ("timeframes", Json.obj [("short_term", Json.str "LONG"),
        ("medium_term", Json.str "LONG"), ("long_term", Json.str "LONG")])]

/-! ## Helper lemmas -/

theorem string_data_append (a b : String) : (a ++ b).data = a.data ++ b.data :=
  String.data_append a b

theorem string_mk_data (s : String) : String.mk s.data = s := by cases s; rfl

theorem infix_from_offset {α : Type} (l sub : List α) (k n : Nat)
    (h : (l.drop k).take n = sub) : sub <:+: l := by
  refine ⟨l.take k, (l.drop k).drop n, ?_⟩
  rw [← h, List.append_assoc, List.take_append_drop, List.take_append_drop]

theorem pyContains_of_infix {s sub : String} (h : sub.data <:+: s.data) :
    pyContains s sub = true :=
  decide_eq_true h

theorem pyContains_append_mid (a sub b : String) :
    pyContains (a ++ sub ++ b) sub = true := by
  apply decide_eq_true
  rw [string_data_append, string_data_append]
  exact ⟨a.data, b.data, by simp⟩

theorem pyUpper_NEG_append (p : String) :
    pyUpper ("NEG" ++ p) = String.mk ('N' :: 'E' :: 'G' :: p.data.map Char.toUpper) := by
  unfold pyUpper
  rw [string_data_append]
  rfl

theorem pyUpper_NEG_ne_currency (p : String) :
    pyUpper ("NEG" ++ p) ≠ "USD" ∧ pyUpper ("NEG" ++ p) ≠ "EUR" := by
  rw [pyUpper_NEG_append]
  constructor
  · intro h
    have h2 : ('N' :: 'E' :: 'G' :: p.data.map Char.toUpper) = ['U', 'S', 'D'] :=
      congrArg String.data h
    injection h2 with h3 h4
    exact absurd h3 (by decide)
  · intro h
    have h2 : ('N' :: 'E' :: 'G' :: p.data.map Char.toUpper) = ['E', 'U', 'R'] :=
      congrArg String.data h
    injection h2 with h3 h4
    exact absurd h3 (by decide)

theorem pyStartsWith_NEG_append (p : String) :
    pyStartsWith ("NEG" ++ p) "NEG" = true := by
  apply decide_eq_true
  rw [string_data_append]
  exact List.prefix_append _ _

theorem pyDrop_three_NEG (p : String) : pyDrop 3 ("NEG" ++ p) = p := by
  unfold pyDrop
  rw [string_data_append]
  show String.mk p.data = p
  exact string_mk_data p

theorem tryParseDict_isObj {t : String} {j : Json} (h : tryParseDict t = some j) :
    j.isObj = true := by
  unfold tryParseDict at h
  cases hj : json_loads t with
  | none => rw [hj] at h; exact absurd h (by simp)
  | some r =>
    rw [hj] at h
    dsimp only at h
    by_cases hr : r.isObj = true
    · rw [if_pos hr] at h
      injection h with h'
      rw [← h']
      exact hr
    · rw [if_neg hr] at h
      exact absurd h (by simp)

theorem tryParseDict_truthy_obj {t : String} {j : Json}
    (h : tryParseDict t = some j) (ht : jsonTruthy j = true) :
    ∃ l, j = Json.obj l ∧ l ≠ [] := by
  have hobj := tryParseDict_isObj h
  cases j with
  | obj l =>
    refine ⟨l, rfl, fun he => ?_⟩
    subst he
    simp [jsonTruthy] at ht
  | null => simp [Json.isObj] at hobj
  | bool b => simp [Json.isObj] at hobj
  | num q => simp [Json.isObj] at hobj
  | str s => simp [Json.isObj] at hobj
  | arr l => simp [Json.isObj] at hobj

/-! ## Claim theorems -/

/-- C7 counterexample: at direction LONG, barrier 80 and price 0 (the price
the portfolio worker substitutes when an analysis fails),
`calculate_ko_proximity` returns the no-risk constant 100, while the
claim's LONG formula (with total division on ℚ) gives 0: the claim omits
the `current_price ≤ 0` guard of the code. -/
theorem c7_counterexample :
    calculate_ko_proximity 0 80 "LONG" = 100 ∧
    ((0 : Rat) - 80) / 0 * 100 = 0 ∧ (100 : Rat) ≠ 0 :=
  ⟨rfl, by norm_num, by norm_num⟩

/-- C7 (amended): barrier proximity is `(price − barrier)/price × 100` for
LONG and `(barrier − price)/price × 100` for SHORT whenever price and
barrier are both positive, and the fixed no-risk constant 100 when the
barrier is ≤ 0, when the price is ≤ 0, or when the direction is neither
LONG nor SHORT (e.g. NORMAL); for LONG with barrier 80 and price 82 it is
100/41 ≈ 2.44, inside the critical (< 5) band. -/
theorem calculate_ko_proximity_spec :
    (∀ p ko : Rat, 0 < p → 0 < ko →
      calculate_ko_proximity p ko "LONG" = (p - ko) / p * 100) ∧
    (∀ p ko : Rat, 0 < p → 0 < ko →
      calculate_ko_proximity p ko "SHORT" = (ko - p) / p * 100) ∧
    (∀ (p ko : Rat) (d : String), ko ≤ 0 ∨ p ≤ 0 →
      calculate_ko_proximity p ko d = 100) ∧
    (∀ (p ko : Rat) (d : String), d ≠ "LONG" → d ≠ "SHORT" →
      calculate_ko_proximity p ko d = 100) ∧
    (calculate_ko_proximity 82 80 "LONG" = 100 / 41 ∧ (100 : Rat) / 41 < 5) := by
  refine ⟨?_, ?_, ?_, ?_, ?_, ?_⟩
  · intro p ko hp hko
    unfold calculate_ko_proximity
    rw [if_neg (by push_neg; exact ⟨hko, hp⟩), if_pos rfl]
  · intro p ko hp hko
    unfold calculate_ko_proximity
    rw [if_neg (by push_neg; exact ⟨hko, hp⟩), if_neg (by decide), if_pos rfl]
  · intro p ko d h
    unfold calculate_ko_proximity
    rw [if_pos h]
  · intro p ko d hL hS
    unfold calculate_ko_proximity
    by_cases h1 : ko ≤ 0 ∨ p ≤ 0
    · rw [if_pos h1]
    · rw [if_neg h1, if_neg hL, if_neg hS]
  · norm_num [calculate_ko_proximity]
  · norm_num

/-- Witness for `calculate_ko_proximity_spec` at LONG, price 82, barrier 80. -/
theorem calculate_ko_proximity_spec_witness :
    calculate_ko_proximity 82 80 "LONG" = ((82 : Rat) - 80) / 82 * 100 :=
  calculate_ko_proximity_spec.1 82 80 (by norm_num) (by norm_num)

/-- C8: the composite risk score is monotonically non-decreasing in the max
sector weight with all other inputs held fixed, and the clamped score always
lies in [0, 100]. -/
theorem risk_score_monotone_max_sector_weight
    (w1 w2 beta corr top2 : Rat) (n : Nat) (h : w1 ≤ w2) :
    risk_score w1 beta corr n top2 ≤ risk_score w2 beta corr n top2 ∧
    0 ≤ risk_score w1 beta corr n top2 ∧ risk_score w1 beta corr n top2 ≤ 100 := by
  have hpen :
      (if w1 > 0.8 then (25 : Rat) else if w1 > 0.6 then 15 else if w1 > 0.4 then 5 else 0) ≤
      (if w2 > 0.8 then (25 : Rat) else if w2 > 0.6 then 15 else if w2 > 0.4 then 5 else 0) := by
    split_ifs <;> linarith
  refine ⟨?_, ?_, ?_⟩
  · unfold risk_score
    exact min_le_min le_rfl (max_le_max le_rfl (by linarith))
  · unfold risk_score
    exact le_min (by norm_num) (le_max_left _ _)
  · unfold risk_score
    exact min_le_left _ _

/-- Witness for `risk_score_monotone_max_sector_weight`: sector weight 0.5
versus 0.9 with the other inputs fixed. -/
theorem risk_score_monotone_max_sector_weight_witness :
    risk_score (1/2) 1 (3/10) 0 (3/5) ≤ risk_score (9/10) 1 (3/10) 0 (3/5) ∧
    0 ≤ risk_score (1/2) 1 (3/10) 0 (3/5) ∧ risk_score (1/2) 1 (3/10) 0 (3/5) ≤ 100 :=
  risk_score_monotone_max_sector_weight (1/2) (9/10) 1 (3/10) (3/5) 0 (by norm_num)

/-- C9: the position parser accepts a doubled-delimiter negative performance
field — after `--` → `-NEG` normalisation the sixth token is `NEG` followed
by the number, and the parsed performance is that number negated — and it
rejects every string whose direction token is not LONG/SHORT/NORMAL. -/
theorem parse_position_spec :
    (∀ (s n d v f ko p : String) (qv qf qko qp : Rat),
      pySplit (pyReplace s "--" "-NEG") "-" = [n, d, v, f, ko, "NEG" ++ p] →
      (pyUpper d = "LONG" ∨ pyUpper d = "SHORT" ∨ pyUpper d = "NORMAL") →
      pyFloat v = some qv → pyFloat f = some qf → pyFloat ko = some qko →
      pyFloat p = some qp →
      parse_position s = some ⟨"", n, pyUpper d, qv, qf, qko, some (-qp), "USD"⟩) ∧
    (∀ (s n d : String) (rest : List String),
      pySplit (pyReplace s "--" "-NEG") "-" = n :: d :: rest →
      3 ≤ rest.length →
      pyUpper d ≠ "LONG" → pyUpper d ≠ "SHORT" → pyUpper d ≠ "NORMAL" →
      parse_position s = none) := by
  constructor
  · intro s n d v f ko p qv qf qko qp hsplit hdir hv hf hko hp
    unfold parse_position
    rw [hsplit]
    dsimp only
    rw [if_pos hdir, hv, hf, hko]
    dsimp only
    rw [if_neg (not_or.mpr (pyUpper_NEG_ne_currency p)),
        if_pos (pyStartsWith_NEG_append p), pyDrop_three_NEG, hp]
    rfl
  · intro s n d rest hsplit hlen hL hS hN
    rcases rest with _ | ⟨v, _ | ⟨f, _ | ⟨ko, rest'⟩⟩⟩
    · simp at hlen
    · simp at hlen
    · simp at hlen
    · unfold parse_position
      rw [hsplit]
      dsimp only
      rw [if_neg (by push_neg; exact ⟨hL, hS, hN⟩)]

/-- Witness for `parse_position_spec`: the doubled-delimiter example from
the sources and a rejected unknown direction token. -/
theorem parse_position_spec_witness :
    parse_position "SILVER-LONG-956-4.16-78--15.5" =
      some ⟨"", "SILVER", "LONG", 956, mkRat 104 25, 78, some (-(mkRat 31 2)), "USD"⟩ ∧
    parse_position "SILVER-UP-956-4.16-78" = none := by
  constructor
  · exact parse_position_spec.1 "SILVER-LONG-956-4.16-78--15.5" "SILVER" "LONG"
      "956" "4.16" "78" "15.5" 956 (mkRat 104 25) 78 (mkRat 31 2)
      (by rfl) (Or.inl rfl) rfl rfl rfl rfl
  · exact parse_position_spec.2 "SILVER-UP-956-4.16-78" "SILVER" "UP"
      ["956", "4.16", "78"] (by rfl) (by norm_num) (by decide) (by decide) (by decide)

/-- C10: any successful result of `parse_json_response` is a non-empty JSON
object: a parsed top-level array, number or string is rejected by the
`isinstance(result, dict)` check inside `_try_parse`, and an empty object is
rejected by the truthiness checks. -/
theorem parse_json_response_only_objects (s : String) (j : Json)
    (h : parse_json_response s = some j) : ∃ l, j = Json.obj l ∧ l ≠ [] := by
  simp only [parse_json_response] at h
  split at h
  · exact absurd h (by simp)
  · split at h
    · next hc =>
      have := tryParseDict_truthy_obj h (by rw [h] at hc; simpa [truthyOpt] using hc)
      exact this
    · split at h
      · split at h
        · split at h
          · next hc2 =>
            have := tryParseDict_truthy_obj h (by rw [h] at hc2; simpa [truthyOpt] using hc2)
            exact this
          · exact absurd h (by simp)
        · exact absurd h (by simp)
      · exact absurd h (by simp)

/-- Witness for `parse_json_response_only_objects` on a simple object. -/
theorem parse_json_response_only_objects_witness :
    ∃ l, Json.obj [("a", Json.num 1)] = Json.obj l ∧ l ≠ [] :=
  parse_json_response_only_objects "\x7b\"a\": 1\x7d" (Json.obj [("a", Json.num 1)]) (by rfl)

/-- C5 counterexample: in a judge response where the `**SHORT**` marker
appears strictly before the `**LONG**` marker, `_extract_decision` still
returns LONG — the scan is by fixed priority, not order of appearance. -/
theorem c5_counterexample :
    pyFindSub "**SHORT** was argued before **LONG**" "**SHORT**" = some 0 ∧
    pyFindSub "**SHORT** was argued before **LONG**" "**LONG**" = some 28 ∧
    _extract_decision "**SHORT** was argued before **LONG**" = "LONG" ∧
    ("LONG" : String) ≠ "SHORT" :=
  ⟨rfl, rfl, rfl, by decide⟩

/-- C5 (amended): `_extract_decision` checks the two markers `**LONG**` and
`**SHORT**` in fixed priority order — LONG wins whenever its marker occurs
anywhere, SHORT when only its marker occurs — and returns HOLD when neither
marker is present (there is no `**HOLD**` marker scan). -/
theorem _extract_decision_spec :
    (∀ s, pyContains s "**LONG**" = true → _extract_decision s = "LONG") ∧
    (∀ s, pyContains s "**LONG**" = false → pyContains s "**SHORT**" = true →
      _extract_decision s = "SHORT") ∧
    (∀ s, pyContains s "**LONG**" = false → pyContains s "**SHORT**" = false →
      _extract_decision s = "HOLD") := by
  refine ⟨?_, ?_, ?_⟩ <;> intro s h <;> simp [_extract_decision, h]

/-- Witness for `_extract_decision_spec` on concrete judge responses. -/
theorem _extract_decision_spec_witness :
    _extract_decision "RECOMMENDATION: **LONG**" = "LONG" ∧
    _extract_decision "RECOMMENDATION: **SHORT**" = "SHORT" ∧
    _extract_decision "I cannot decide." = "HOLD" :=
  ⟨_extract_decision_spec.1 _ (by rfl),
   _extract_decision_spec.2.1 _ (by rfl) (by rfl),
   _extract_decision_spec.2.2 _ (by rfl) (by rfl)⟩

/-- C6 counterexample: a non-rate-limit failure on the first attempt is not
propagated immediately — the client sleeps the fixed 2 s, retries, and
returns the second attempt's response. -/
theorem c6_counterexample :
    call_gemini 3 5 [.failure "boom", .response "hi"] = (.ok "hi", [2]) ∧
    (Except.ok "hi" : Except String String) ≠ .error "boom" :=
  ⟨rfl, fun h => Except.noConfusion h⟩

/-- C6 (amended): `call_gemini` retries a rate-limit failure (error text
containing "429") before the final attempt after sleeping
`retry_delay × (attempt+1)`; a failure on the final attempt — rate-limit or
not — is propagated; and a non-rate-limit failure before the final attempt
is not propagated: the client sleeps the fixed 2 s and retries. -/
theorem call_gemini_retry_spec :
    (∀ (d m a : Nat) (msg : String) (rest : List GeminiOutcome),
      pyContains msg "429" = true → a < m - 1 →
      call_gemini_loop d m a (.failure msg :: rest) =
        ((call_gemini_loop d m (a + 1) rest).1,
          d * (a + 1) :: (call_gemini_loop d m (a + 1) rest).2)) ∧
    (∀ (d m a : Nat) (msg : String) (rest : List GeminiOutcome),
      a = m - 1 → a < m →
      call_gemini_loop d m a (.failure msg :: rest) = (.error msg, [])) ∧
    (∀ (d m a : Nat) (msg : String) (rest : List GeminiOutcome),
      pyContains msg "429" = false → a < m - 1 →
      call_gemini_loop d m a (.failure msg :: rest) =
        ((call_gemini_loop d m (a + 1) rest).1,
          2 :: (call_gemini_loop d m (a + 1) rest).2)) := by
  refine ⟨?_, ?_, ?_⟩
  · intro d m a msg rest h429 hlt
    rw [call_gemini_loop, if_neg (by omega)]
    dsimp only
    rw [if_pos ⟨h429, hlt⟩]
  · intro d m a msg rest heq hlt
    rw [call_gemini_loop, if_neg (by omega)]
    dsimp only
    rw [if_neg (by rintro ⟨-, h2⟩; omega), if_pos heq]
  · intro d m a msg rest h429 hlt
    rw [call_gemini_loop, if_neg (by omega)]
    dsimp only
    rw [if_neg (by simp [h429]), if_neg (by omega), if_pos hlt]

/-- Witness for `call_gemini_retry_spec`: a rate-limited first attempt with
the source defaults `max_retries = 3`, `retry_delay = 5`. -/
theorem call_gemini_retry_spec_witness :
    call_gemini_loop 5 3 0 [.failure "429 RESOURCE_EXHAUSTED"] =
      ((call_gemini_loop 5 3 1 []).1, 5 * (0 + 1) :: (call_gemini_loop 5 3 1 []).2) :=
  call_gemini_retry_spec.1 5 3 0 "429 RESOURCE_EXHAUSTED" [] (by rfl) (by omega)

/-- C3 counterexample: a schema-shaped model record whose signal is LONG but
whose conservative barrier (150) lies above its reference price (100) is
returned by `risk_judge` unchanged — the code never validates barrier
levels against the price, so the claimed invariant fails on this reachable
output. -/
theorem c3_counterexample :
    risk_judge (some c3BadRecord) 100 1 = c3BadRecord ∧
    c3BadRecord.getField "signal" = some (Json.str "LONG") ∧
    c3BadRecord.getField "price_usd" = some (Json.num 100) ∧
    ((c3BadRecord.getField "strategies").bind
      (fun s => s.getField "conservative")).bind
      (fun c => c.getField "ko_level_usd") = some (Json.num 150) ∧
    ¬ ((150 : Rat) < 100) :=
  ⟨rfl, rfl, rfl, rfl, by norm_num⟩

/-- C3 (amended): the final risk judge passes every truthy extracted record
through unchanged and never validates barrier levels, so the barrier-side
invariant holds for a returned record exactly when the model's record
already satisfied it; the degraded fallback record carries an empty
strategy set and so satisfies the invariant vacuously. -/
theorem risk_judge_passthrough (r : Json) (p rate : Rat)
    (h : jsonTruthy r = true) :
    risk_judge (some r) p rate = r ∧
    (risk_judge none p rate).getField "strategies" = some (Json.obj []) := by
  constructor
  · unfold risk_judge
    dsimp only
    rw [if_pos h]
  · rfl

/-- Witness for `risk_judge_passthrough` on a concrete truthy record. -/
theorem risk_judge_passthrough_witness :
    risk_judge (some (Json.obj [("signal", Json.str "HOLD")])) 10 1 =
      Json.obj [("signal", Json.str "HOLD")] ∧
    (risk_judge none 10 1).getField "strategies" = some (Json.obj []) :=
  risk_judge_passthrough (Json.obj [("signal", Json.str "HOLD")]) 10 1 (by rfl)

/-- C2 counterexample: this text contains a fenced JSON block that parses to
a truthy schema-style object, yet `parse_json_response` returns `none`: the
single closing brace in the trailing prose becomes the `rfind`-selected
span end, and that span is not valid JSON. -/
theorem c2_counterexample :
    (∃ j, json_loads "\x7b\"signal\":\"SHORT\",\"confidence\":0.6\x7d" = some j ∧
      j.isObj = true ∧ jsonTruthy j = true) ∧
    parse_json_response
      "noise ```json\n\x7b\"signal\":\"SHORT\",\"confidence\":0.6\x7d\n``` \x7d" =
      none :=
  ⟨⟨_, rfl, rfl, rfl⟩, rfl⟩

/-- C2 (amended): extraction returns exactly the record of a contained JSON
block provided the fence-stripped text does not itself parse truthily and
the first `{` and the last `}` of the stripped text delimit exactly that
block (encoding a non-empty object) — a stray brace in surrounding prose
breaks the span condition and defeats extraction (see the counterexample). -/
theorem parse_json_response_block (s block : String) (l : List (String × Json))
    (a b : Nat)
    (hne : ¬ s = "")
    (hdirect : truthyOpt (tryParseDict (strip_markdown_code_block s)) = false)
    (ha : pyFindChar (strip_markdown_code_block s) '{' = some a)
    (hb : pyRFindChar (strip_markdown_code_block s) '}' = some b)
    (hab : a < b)
    (hslice : pySlice (strip_markdown_code_block s) a (b + 1) = block)
    (hblock : json_loads block = some (Json.obj l))
    (hl : l ≠ []) :
    parse_json_response s = some (Json.obj l) := by
  have htry : tryParseDict block = some (Json.obj l) := by
    unfold tryParseDict
    rw [hblock]
    rfl
  have htruthy : truthyOpt (tryParseDict block) = true := by
    rw [htry]
    cases l with
    | nil => exact absurd rfl hl
    | cons x xs => rfl
  unfold parse_json_response
  rw [if_neg hne]
  dsimp only
  rw [if_neg (by simp [hdirect]), ha, hb]
  dsimp only
  rw [if_pos hab, hslice, if_pos htruthy, htry]

/-- Witness for `parse_json_response_block`: the spec's Scenario B input,
prose before and after a fenced block. -/
theorem parse_json_response_block_witness :
    parse_json_response
      "noise ```json\n\x7b\"signal\":\"SHORT\",\"confidence\":0.6\x7d\n``` trailing" =
      some (Json.obj [("signal", Json.str "SHORT"), ("confidence", Json.num (mkRat 3 5))]) :=
  parse_json_response_block
    "noise ```json\n\x7b\"signal\":\"SHORT\",\"confidence\":0.6\x7d\n``` trailing"
    "\x7b\"signal\":\"SHORT\",\"confidence\":0.6\x7d"
    [("signal", Json.str "SHORT"), ("confidence", Json.num (mkRat 3 5))]
    14 48 (by decide) (by rfl) (by rfl) (by rfl) (by omega) (by rfl) (by rfl)
    (List.cons_ne_nil _ _)

/-- C1 counterexample: with an LLM that answers `"I cannot decide."` to both
the main prompt and the retry prompt, the TradingAgents risk-manager node
raises (the `ValueError`, modelled by `.error`) instead of returning a
degraded fallback record: the pipeline is not non-throwing on double
extraction failure. -/
theorem c1_counterexample :
    ∃ msg, (risk_manager_node (fun _ => "I cannot decide.") (fun _ => [])
      ⟨"AAPL", "en", none, none, ⟨"", "", "", "", "", "", "", 0⟩,
        "", "", "", "", ""⟩).1 = .error msg :=
  ⟨_, rfl⟩

/-- C1 (amended): on total extraction failure the universal pipeline's risk
judge returns the degraded fallback record — signal IGNORE, confidence 0.0,
unable_to_assess true, empty strategies and zones — as a non-throwing
value, while the TradingAgents risk-manager node raises an error after its
single failed retry instead of producing such a record. -/
theorem degraded_fallback_spec :
    (∀ p rate : Rat,
      risk_judge none p rate = risk_judge_fallback p (p / rate) ∧
      (risk_judge none p rate).getField "signal" = some (Json.str "IGNORE") ∧
      (risk_judge none p rate).getField "confidence" = some (Json.num 0) ∧
      (risk_judge none p rate).getField "unable_to_assess" = some (Json.bool true) ∧
      (risk_judge none p rate).getField "strategies" = some (Json.obj []) ∧
      (risk_judge none p rate).getField "support_zones" = some (Json.arr []) ∧
      (risk_judge none p rate).getField "resistance_zones" = some (Json.arr [])) ∧
    (∀ (llm : String → String) (memory : String → List String) (st : RMState),
      parse_trade_decision_json (llm (risk_manager_main_prompt memory st)) = none →
      parse_trade_decision_json (llm (retry_prompt st.company_of_interest)) = none →
      ∃ msg, (risk_manager_node llm memory st).1 = .error msg) := by
  constructor
  · intro p rate
    exact ⟨rfl, rfl, rfl, rfl, rfl, rfl, rfl⟩
  · intro llm memory st h1 h2
    unfold risk_manager_node
    dsimp only
    rw [h1]
    dsimp only
    rw [h2]
    exact ⟨_, rfl⟩

/-- Witness for `degraded_fallback_spec`: concrete degraded fallback and a
concrete double extraction failure in the risk-manager node. -/
theorem degraded_fallback_spec_witness :
    (risk_judge none 100 1 = risk_judge_fallback 100 (100 / 1) ∧
      (risk_judge none 100 1).getField "signal" = some (Json.str "IGNORE") ∧
      (risk_judge none 100 1).getField "confidence" = some (Json.num 0) ∧
      (risk_judge none 100 1).getField "unable_to_assess" = some (Json.bool true) ∧
      (risk_judge none 100 1).getField "strategies" = some (Json.obj []) ∧
      (risk_judge none 100 1).getField "support_zones" = some (Json.arr []) ∧
      (risk_judge none 100 1).getField "resistance_zones" = some (Json.arr [])) ∧
    ∃ msg, (risk_manager_node (fun _ => "no parseable JSON here") (fun _ => [])
      ⟨"MSFT", "en", none, none, ⟨"", "", "", "", "", "", "", 0⟩,
        "", "", "", "", ""⟩).1 = .error msg :=
  ⟨degraded_fallback_spec.1 100 1,
   degraded_fallback_spec.2 (fun _ => "no parseable JSON here") (fun _ => [])
     ⟨"MSFT", "en", none, none, ⟨"", "", "", "", "", "", "", 0⟩, "", "", "", "", ""⟩
     (by rfl) (by rfl)⟩

/-- C4 counterexample: the universal pipeline's final judgment runs through
`call_gemini_json` with a schema; when every response fails JSON decoding
the loop retries with the same prompt until `max_retries`, making three
extraction attempts in one step — not one retry, and with no minimal
stripped-down prompt. -/
theorem c4_counterexample :
    call_gemini_json true 3
      [.response "not json", .response "still not json", .response "also not json"] =
      (none, 3) ∧
    ¬ ((call_gemini_json true 3
      [.response "not json", .response "still not json", .response "also not json"]).2 ≤ 2) :=
  ⟨rfl, by decide⟩

/-- C4 (amended): in the TradingAgents risk-manager node a failed extraction
triggers exactly one retry — on first-parse success exactly the main prompt
is sent, on failure exactly the main prompt followed by
`retry_prompt company` — and the retry prompt is a function of the company
name alone (so it carries no debate transcript, which the main prompt
does) and contains the company name, the JSON fence and the schema's
`"signal"` key; the universal pipeline's judge, by contrast, retries
extraction inside `call_gemini_json` with an unchanged prompt (see the
counterexample). -/
theorem risk_manager_retry_spec :
    (∀ (llm : String → String) (memory : String → List String) (st : RMState),
      parse_trade_decision_json (llm (risk_manager_main_prompt memory st)) ≠ none →
      (risk_manager_node llm memory st).2 = [risk_manager_main_prompt memory st]) ∧
    (∀ (llm : String → String) (memory : String → List String) (st : RMState),
      parse_trade_decision_json (llm (risk_manager_main_prompt memory st)) = none →
      (risk_manager_node llm memory st).2 =
        [risk_manager_main_prompt memory st, retry_prompt st.company_of_interest]) ∧
    (∀ company : String,
      pyContains (retry_prompt company) company = true ∧
      pyContains (retry_prompt company) "```json" = true ∧
      pyContains (retry_prompt company) "\"signal\"" = true) ∧
    (∀ lang_ins dir_ins price_ins trader_plan past_memory_str history : String,
      pyContains (risk_manager_prompt lang_ins dir_ins price_ins trader_plan
        past_memory_str history) history = true) := by
  refine ⟨?_, ?_, ?_, ?_⟩
  · intro llm memory st h
    obtain ⟨td, htd⟩ := Option.ne_none_iff_exists'.mp h
    unfold risk_manager_node
    dsimp only
    rw [htd]
  · intro llm memory st h
    unfold risk_manager_node
    dsimp only
    rw [h]
    dsimp only
    cases h2 : parse_trade_decision_json (llm (retry_prompt st.company_of_interest)) <;>
      rfl
  · intro company
    refine ⟨pyContains_append_mid _ _ _, ?_, ?_⟩
    · apply pyContains_of_infix
      unfold retry_prompt
      rw [string_data_append]
      refine List.IsInfix.trans ?_ (List.suffix_append _ _).isInfix
      exact infix_from_offset _ _ 57 7 (by rfl)
    · apply pyContains_of_infix
      unfold retry_prompt
      rw [string_data_append]
      refine List.IsInfix.trans ?_ (List.suffix_append _ _).isInfix
      exact infix_from_offset _ _ 69 8 (by rfl)
  · intro lang_ins dir_ins price_ins trader_plan past_memory_str history
    exact pyContains_append_mid _ _ _

/-- Witness for `risk_manager_retry_spec`: a concrete first-parse failure
producing exactly the two prompts, and the retry prompt containing the
company name. -/
theorem risk_manager_retry_spec_witness :
    (risk_manager_node (fun _ => "unparseable") (fun _ => [])
        ⟨"NVDA", "en", none, none, ⟨"", "", "", "", "", "", "", 0⟩,
          "", "", "", "", ""⟩).2 =
      [risk_manager_main_prompt (fun _ => [])
        ⟨"NVDA", "en", none, none, ⟨"", "", "", "", "", "", "", 0⟩,
          "", "", "", "", ""⟩,
       retry_prompt "NVDA"] ∧
    pyContains (retry_prompt "NVDA") "NVDA" = true :=
  ⟨risk_manager_retry_spec.2.1 (fun _ => "unparseable") (fun _ => [])
     ⟨"NVDA", "en", none, none, ⟨"", "", "", "", "", "", "", 0⟩, "", "", "", "", ""⟩
     (by rfl),
   (risk_manager_retry_spec.2.2.1 "NVDA").1⟩
